import Mathlib

/-
Verification development for the parallel test-execution harness of
`build.py` (luceneserver). Python strings are modelled as `List Char`,
machine-independent counters as `Nat`. Fallible operations return
`Except`/`Option` or a dedicated result inductive. Each definition's doc
comment names the source function and lines it embeds.
-/

namespace LuceneBuild

/-- Character-list model of the Python pattern string `'%0A'`. -/
def pctNL : List Char := "%0A".toList

/-- Character-list model of the Python pattern string `'%09'`. -/
def pctTab : List Char := "%09".toList

/-- Character-list model of the newline replacement `'\n'`. -/
def nlStr : List Char := ['\n']

/-- Character-list model of the tab replacement `'\t'`. -/
def tabStr : List Char := ['\t']

/-- Python `pat in s` substring test for character lists: true when `pat`
occurs (contiguously) somewhere in `s`. -/
def containsSub (pat : List Char) : List Char → Bool
  | [] => pat.isEmpty
  | c :: cs => pat.isPrefixOf (c :: cs) || containsSub pat cs

/-- Python `str.replace(pat, rep)`: leftmost, non-overlapping replacement,
scanning left to right and resuming after each inserted replacement.
The `Nat` argument is recursion fuel; it is always called with fuel equal
to the length of the string, which suffices because each step consumes at
least one character of the input. -/
def replaceAllFuel (pat rep : List Char) : Nat → List Char → List Char
  | 0, s => s
  | _ + 1, [] => []
  | n + 1, c :: cs =>
    if pat ≠ [] ∧ pat.isPrefixOf (c :: cs) then
      rep ++ replaceAllFuel pat rep n ((c :: cs).drop pat.length)
    else
      c :: replaceAllFuel pat rep n cs

/-- Python `s.replace(pat, rep)` on character lists (fuel instantiated). -/
def replaceAll (pat rep s : List Char) : List Char :=
  replaceAllFuel pat rep s.length s

/-- Embeds `unescape` (build.py lines 57-58):
`s.replace('%0A', '\n').replace('%09', '\t')` — first every `%0A` becomes a
newline, then every `%09` becomes a tab. -/
def unescape (s : List Char) : List Char :=
  replaceAll pctTab tabStr (replaceAll pctNL nlStr s)

/-- Embeds the events-log path expression of `RunTestsJVM.run`
(build.py line 98): `'build/test/%d.events' % self.id`. -/
def eventsFile (id : Nat) : String :=
  "build/test/" ++ toString id ++ ".events"

/-- Embeds the constructor state of `RunTestsJVM.__init__`
(build.py lines 62-73): the fields that shape the child command line and
the per-worker event handling (the queue handle and the counters are
modelled separately, in `RunState`). -/
structure RunTestsJVM where
  id : Nat
  classPath : List String
  verbose : Bool
  seed : Option String
  doPrintOutput : Bool
  testMethod : Option String
deriving DecidableEq, Repr

/-- Classpath separator used by `':'.join(self.classPath)`
(build.py line 79). -/
def colonSep : String := ":"

/-- Embeds the child-process command-line construction of
`RunTestsJVM.run` (build.py lines 76-106): java, heap limit, classpath,
optional verbose/seed/method system properties (`-Dtests.verbose` is
appended twice when verbose, exactly as the source does at lines 81 and
91), assertions, the slave main class, the per-id events file, and the
flush/stdin flags. -/
def mkJvmCmd (w : RunTestsJVM) : List String :=
  ["java", "-Xmx512m", "-cp", String.intercalate colonSep w.classPath]
  ++ (if w.verbose then ["-Dtests.verbose=true"] else [])
  ++ ["-Djava.util.logging.config=lib/logging.properties", "-DtempDir=build/temp"]
  ++ (match w.seed with
      | some s => ["-Dtests.seed=" ++ s]
      | none => [])
  ++ (match w.testMethod with
      | some m => ["-Dtests.method=" ++ m]
      | none => [])
  ++ (if w.verbose then ["-Dtests.verbose=true"] else [])
  ++ ["-ea", "-esa", "com.carrotsearch.ant.tasks.junit4.slave.SlaveMainSafe",
      "-eventsfile", eventsFile w.id, "-flush", "-stdin"]

/-- Embeds the worker-spawning loop of `main` (build.py lines 471-474):
`for i in range(jvmCount): jvm = RunTestsJVM(0, jobs, testCP, verbose,
None, printOutput, testMethod=testMethod)`. Note that the source passes
the literal `0` as the id (the loop index `i` is unused) and the literal
`None` as the seed (the `seed` parsed at line 393 is unused); the unused
`seedArg` parameter of this definition records that a parsed seed was in
scope and dropped. -/
def mainSpawnWorkers (jvmCount : Nat) (testCP : List String) (verbose : Bool)
    (_seedArg : Option String) (printOutput : Bool) (testMethod : Option String) :
    List RunTestsJVM :=
  (List.range jvmCount).map fun _ =>
    { id := 0, classPath := testCP, verbose := verbose, seed := none,
      doPrintOutput := printOutput, testMethod := testMethod }

/-- Result of the command-line option lookup `getArg`: either a parsed
optional value together with the remaining argv, or the Python
`AttributeError` that `sys.argv.indexOf(option)` raises. -/
inductive GetArgResult where
  | ok (value : Option String) (argv : List String)
  | attrError
deriving DecidableEq, Repr

/-- Embeds `getArg` (build.py lines 299-308). When `option` is present in
`argv` the source executes `i = sys.argv.indexOf(option)`; Python lists
have no `indexOf` method (the method is `index`), so this line raises
`AttributeError` unconditionally, before the bounds check and the
`del`/return of lines 302-306 (which are therefore unreachable). When the
option is absent, `None` is returned and argv is untouched. -/
def getArg (argv : List String) (option : String) : GetArgResult :=
  if option ∈ argv then GetArgResult.attrError
  else GetArgResult.ok none argv

/-- Outcome of the final reporting block of the `test` target in `main`
(build.py lines 493-500): a failure report with counts (exits 1), the
distinct `no tests ran` report (no exit call), or the success report
(exits 0). -/
inductive RunOutcome where
  | failureReport (failCount testCount suiteCount : Nat)
  | noTestsRan
  | successReport (testCount suiteCount : Nat)
deriving DecidableEq, Repr

/-- Embeds the branch structure of build.py lines 493-500:
`if failCount > 0: print FAILURE; sys.exit(1)` /
`elif testCount == 0: print 'FAILURE: no tests ran!'` (falls through) /
`else: print SUCCESS; sys.exit(0)`. -/
def finishRun (failCount testCount suiteCount : Nat) : RunOutcome :=
  if failCount > 0 then RunOutcome.failureReport failCount testCount suiteCount
  else if testCount = 0 then RunOutcome.noTestsRan
  else RunOutcome.successReport testCount suiteCount

/-- Exit the outcome forces: `some c` when the source calls `sys.exit(c)`
on that path, `none` when control falls through without an exit call (the
`no tests ran` path prints its report and continues; the interpreter then
ends the script with an implicit status 0). -/
def exitCodeOf : RunOutcome → Option Nat
  | RunOutcome.failureReport _ _ _ => some 1
  | RunOutcome.noTestsRan => none
  | RunOutcome.successReport _ _ => some 0

/-- Message raised when no test classes were discovered at all
(build.py line 449). -/
def noTestsFoundMsg : String := "no tests found (wtf?)"

/-- Message raised when the substring filter matched nothing
(build.py line 451). -/
def noTestsMatchMsg (s : String) : String :=
  "no tests match substring \"" ++ s ++ "\""

/-- Embeds the zero-matching-classes check of `main` (build.py lines
447-451): an empty discovered class list raises a `RuntimeError` whose
message depends on whether a substring filter was given. -/
def checkTestClasses (testClasses : List String) (testSubString : Option String) :
    Except String Unit :=
  if testClasses.length = 0 then
    match testSubString with
    | none => Except.error noTestsFoundMsg
    | some s => Except.error (noTestsMatchMsg s)
  else Except.ok ()

/-- One decoded event frame, as consumed by the dispatch of
`RunTestsJVM.run` (build.py lines 140-167): `event[0]` is the kind string
and the payload fields of `event[1]` that the dispatch reads are `chunk`
(for `APPEND_*`), `failure.message` / `failure.trace` (for `*_FAILURE`)
and `description` (for `TEST_STARTED`). -/
structure Event where
  kind : String
  chunk : List Char := []
  failureMessage : Option (List Char) := none
  failureTrace : List Char := []
  description : List Char := []
deriving DecidableEq, Repr

/-- Mutable state a worker carries through `RunTestsJVM.run`: the
cross-job counters of lines 70-72 (`testCount`, `suiteCount`,
`failCount`), the per-job locals of lines 126-130 (`pendingOutput`,
`didFail`, `testCaseFailed`, `testCaseName`), and the list of strings the
worker has printed through `message(...)` (console output, in order). -/
structure RunState where
  testCount : Nat := 0
  suiteCount : Nat := 0
  failCount : Nat := 0
  pendingOutput : List (List Char) := []
  didFail : Bool := false
  testCaseFailed : Bool := false
  testCaseName : Option (List Char) := none
  messages : List (List Char) := []
deriving DecidableEq, Repr

/-- Python `s.find(c)` for a single-character needle: the first index, or
`-1` when absent. -/
def pyFind (s : List Char) (c : Char) : Int :=
  match s.findIdx? (fun x => x == c) with
  | some n => (n : Int)
  | none => -1

/-- Clamp one Python slice endpoint to an index into a string of length
`len`: negative endpoints count from the end, endpoints are clamped into
`[0, len]`. -/
def pySliceIdx (len : Nat) (i : Int) : Nat :=
  if i < 0 then (max 0 ((len : Int) + i)).toNat else min i.toNat len

/-- Python `s[i:j]` with possibly-negative endpoints. -/
def pySlice (s : List Char) (i j : Int) : List Char :=
  (s.take (pySliceIdx s.length j)).drop (pySliceIdx s.length i)

/-- Embeds the test-case-name extraction of the `TEST_STARTED` branch
(build.py lines 162-165): `i = name.find('#'); j = name.find('(');
name = name[i+1:j]`. -/
def extractTestCaseName (d : List Char) : List Char :=
  pySlice d (pyFind d '#' + 1) (pyFind d '(')

/-- Python `'%s' % v` for an optional string: `None` prints as the four
characters `None`. -/
def pyStrOfOpt : Option (List Char) → List Char
  | none => "None".toList
  | some s => s

/-- Embeds the failure-report formatting of the `TEST_FAILURE` /
`SUITE_FAILURE` branch (build.py lines 148-153): header with the job name
past its 25-character package prefix and the current case name, the
buffered pending output, the optional failure message, and the trace. -/
def failureReport (job : List Char) (name : Option (List Char))
    (pending : List (List Char)) (msg : Option (List Char)) (trace : List Char) :
    List Char :=
  "\n!! ".toList ++ job.drop 25 ++ ".".toList ++ pyStrOfOpt name
    ++ " FAILED !!:\n\n".toList
    ++ pending.flatten
    ++ (match msg with
        | some m => '\n' :: m ++ ['\n']
        | none => [])
    ++ '\n' :: trace

/-- Embeds the event dispatch of the inner loop of `RunTestsJVM.run`
(build.py lines 140-167), one decoded frame at a time. Returns the
updated state and `true` exactly when the `IDLE` branch breaks the inner
loop. The branch order and the state updates follow the source:
`APPEND_*` either prints the unescaped chunk (when a case failure is
pending or `doPrintOutput` is set) or buffers it; `*_FAILURE` prints the
formatted report, latches `testCaseFailed`, and increments `failCount`
only when `didFail` is still unset; `TEST_STARTED` bumps `testCount`,
clears `testCaseFailed` and extracts the case name; `IDLE` breaks;
any other kind is silently ignored. -/
def processEvent (w : RunTestsJVM) (job : List Char) (st : RunState) (e : Event) :
    RunState × Bool :=
  if e.kind = "APPEND_STDOUT" ∨ e.kind = "APPEND_STDERR" then
    let chunk := unescape e.chunk
    if st.testCaseFailed ∨ w.doPrintOutput then
      ({ st with messages := st.messages ++ [chunk] }, false)
    else
      ({ st with pendingOutput := st.pendingOutput ++ [chunk] }, false)
  else if e.kind = "TEST_FAILURE" ∨ e.kind = "SUITE_FAILURE" then
    let s := failureReport job st.testCaseName st.pendingOutput
      e.failureMessage e.failureTrace
    let st2 := { st with messages := st.messages ++ [s], testCaseFailed := true }
    if st2.didFail = false then
      ({ st2 with failCount := st2.failCount + 1, didFail := true }, false)
    else
      (st2, false)
  else if e.kind = "TEST_STARTED" then
    ({ st with testCount := st.testCount + 1, testCaseFailed := false,
               testCaseName := some (extractTestCaseName e.description) }, false)
  else if e.kind = "IDLE" then
    (st, true)
  else
    (st, false)

/-- Folds `processEvent` over the decoded frames of one job, stopping at
the first frame whose branch breaks the loop (the `IDLE` frame), exactly
as the `while True` of build.py lines 132-167 does. -/
def processEvents (w : RunTestsJVM) (job : List Char) (st : RunState) :
    List Event → RunState
  | [] => st
  | e :: es =>
    let r := processEvent w job st e
    if r.2 then r.1 else processEvents w job r.1 es

/-- Embeds one iteration of the job loop of `RunTestsJVM.run` (build.py
lines 113-167) at frame granularity: increments `suiteCount`, prints the
job banner `'%s...' % job[25:]`, resets the per-job locals
(`pendingOutput = []`, `didFail = False`, `testCaseFailed = False`,
`testCaseName = None`), then processes the job's decoded frames until the
`IDLE` frame. -/
def runJob (w : RunTestsJVM) (job : List Char) (st : RunState)
    (events : List Event) : RunState :=
  let st1 := { st with
    suiteCount := st.suiteCount + 1,
    messages := st.messages ++ [job.drop 25 ++ "...".toList],
    pendingOutput := [], didFail := false, testCaseFailed := false,
    testCaseName := none }
  processEvents w job st1 events

/-- A frame whose kind the failure branch of build.py line 147 matches. -/
def isFailureFrame (e : Event) : Bool :=
  e.kind == "TEST_FAILURE" || e.kind == "SUITE_FAILURE"

/-- A frame whose kind the `IDLE` branch of build.py line 166 matches. -/
def isIdleFrame (e : Event) : Bool :=
  e.kind == "IDLE"

/-- Number of failure frames among the frames the inner loop actually
processes for one job: frames past the first `IDLE` frame are never read
for this job. -/
def failFrames (es : List Event) : Nat :=
  (es.takeWhile fun e => !(isIdleFrame e)).countP isFailureFrame

/-- One observation of the world made by one polling iteration of
`ReadEvents.readline`: the bytes of the events file at that instant, and
what `process.poll()` returns (`none` while the child is alive, `some s`
once it has exited with status `s`). -/
structure Obs where
  content : List Char
  procExit : Option Int
deriving DecidableEq, Repr

/-- The characters `f.readline()` yields starting at the current offset
within the given suffix: everything up to and including the first
newline, or the whole remaining suffix when no newline is present yet, or
nothing at end of file. -/
def takeLine : List Char → List Char
  | [] => []
  | c :: cs => if c = '\n' then [c] else c :: takeLine cs

/-- Python `f.readline()` at read offset `pos` within file contents
`content`. -/
def pyReadlineAt (content : List Char) (pos : Nat) : List Char :=
  takeLine (content.drop pos)

/-- The retry condition of build.py line 190:
`l == '' or not l.endswith('\n')`. -/
def lineIncomplete (l : List Char) : Bool :=
  l.isEmpty || !(l.getLast? == some '\n')

/-- Result of `ReadEvents.readline`: a complete line together with the
new read offset, the `RuntimeError` carrying the child's exit status
(build.py line 194), or still polling when the observation trace ran out
(the source would keep sleeping and polling). -/
inductive ReadResult where
  | line (l : List Char) (newPos : Nat)
  | procTerminated (status : Int)
  | stillPolling
deriving DecidableEq, Repr

/-- Embeds `ReadEvents.readline` (build.py lines 186-197) over a trace of
observations, one per polling iteration. Each iteration remembers `pos`
(`self.f.tell()`), reads a line; if the line is empty or lacks its
newline, the source sleeps 10 ms (modelled by advancing to the next
observation), raises when `process.poll()` reports an exit status, and
otherwise seeks back to `pos` and retries — so the retry runs at exactly
the same offset. A complete line is returned with the advanced offset. -/
def readlineLoop (pos : Nat) : List Obs → ReadResult
  | [] => ReadResult.stillPolling
  | o :: rest =>
    let l := pyReadlineAt o.content pos
    if lineIncomplete l then
      match o.procExit with
      | some s => ReadResult.procTerminated s
      | none => readlineLoop pos rest
    else
      ReadResult.line l (pos + l.length)

/-- The needle of the idle test of `ReadEvents.waitIdle`
(build.py line 203): `l.find('"IDLE",') != -1`. -/
def idleMarker : List Char := "\"IDLE\",".toList

/-- Accumulator loop of `ReadEvents.waitIdle` (build.py lines 199-206):
each complete line either contains the idle marker (return the
accumulated lines) or is appended to the accumulator. `none` models the
case in which the line stream ends before any idle line, where the
source would stay blocked in `readline`. -/
def waitIdleAux (acc : List (List Char)) : List (List Char) → Option (List (List Char))
  | [] => none
  | l :: rest =>
    if containsSub idleMarker l then some acc
    else waitIdleAux (acc ++ [l]) rest

/-- Embeds `ReadEvents.waitIdle` (build.py lines 199-206) over the list
of lines `readline` successively returns. -/
def waitIdle (ls : List (List Char)) : Option (List (List Char)) :=
  waitIdleAux [] ls

/-- Python `str.rstrip()`: remove trailing whitespace
(build.py line 134 applies it to every line before framing). -/
def pyRstrip (l : List Char) : List Char :=
  (l.reverse.dropWhile fun c => c.isWhitespace).reverse

/-- The line that terminates a frame: the single character `]`
(build.py line 135, compared after `rstrip`). -/
def closeBracketLine : List Char := [']']

/-- The line that marks the array-of-two-elements event shape: the single
character `[` (build.py line 138). -/
def openBracketLine : List Char := ['[']

/-- Python `'\n'.join(lines)` (build.py line 140), producing the text
handed to `json.loads`. -/
def joinNL : List (List Char) → List Char
  | [] => []
  | [l] => l
  | l :: ls => l ++ '\n' :: joinNL ls

/-- Result of driving the framing layer over a list of raw lines: a
complete frame text (what the source hands to `json.loads`) together
with the unread lines, the `IndexError` that `lines[1]` raises when the
accumulated list has fewer than two elements, or exhaustion of the input
with no complete frame. -/
inductive FrameRes where
  | frame (text : List Char) (rest : List (List Char))
  | indexError
  | noFrame
deriving DecidableEq, Repr

/-- Embeds the framing layer of the inner loop of `RunTestsJVM.run`
(build.py lines 132-170), the part the spec calls `readFrame()`: each raw
line is `rstrip`ped; a line equal to `]` is appended to the accumulator
and then `lines[1]` is inspected — on a one-element accumulator this is
Python `IndexError`; when the second accumulated line is exactly `[` the
joined text is the decoded frame (returned here together with the unread
lines, where the source feeds it to `json.loads` and dispatches); any
other second line discards the accumulator and the scan continues; every
other line is accumulated. -/
def readFrame : List (List Char) → List (List Char) → FrameRes
  | _, [] => FrameRes.noFrame
  | acc, l0 :: rest =>
    let l := pyRstrip l0
    if l = closeBracketLine then
      let acc2 := acc ++ [l]
      match acc2[1]? with
      | none => FrameRes.indexError
      | some second =>
        if second = openBracketLine then FrameRes.frame (joinNL acc2) rest
        else readFrame [] rest
    else
      readFrame (acc ++ [l]) rest

/-- Sample test classpath for concrete instantiations. -/
def sampleCP : List String := ["build/classes/test"]

/-- Sample seed value for concrete instantiations. -/
def seed42 : String := "42"

/-- The system property the child would need to receive seed 42. -/
def seedFlag42 : String := "-Dtests.seed=42"

/-- The `-seed` command-line option string. -/
def optSeed : String := "-seed"

/-- A sample command line: `./build.py test -seed 42`. -/
def argvSeedTest : List String := ["./build.py", "test", "-seed", "42"]

/-- A sample fully-qualified job identifier (25-character package prefix
followed by the class name, as the jobs of build.py line 442 are). -/
def jobSample : List Char := "org.apache.lucene.server.TestFoo".toList

/-- A sample raw output chunk with no escape sequences. -/
def chunkX : List Char := "sample output".toList

/-- A sample `APPEND_STDOUT` frame. -/
def eChunkSample : Event := { kind := "APPEND_STDOUT", chunk := chunkX }

/-- A worker running in all-tests mode with the verbose flag set:
`verbose = True`, `doPrintOutput = False` (build.py lines 461-462 set
`printOutput = False` whenever no single test was selected, independently
of `-verbose`). -/
def wVerboseOnly : RunTestsJVM :=
  { id := 0, classPath := sampleCP, verbose := true, seed := none,
    doPrintOutput := false, testMethod := none }

/-- A worker running in single-test mode: `doPrintOutput = True`. -/
def wPrinting : RunTestsJVM :=
  { id := 0, classPath := sampleCP, verbose := false, seed := none,
    doPrintOutput := true, testMethod := none }

/-- The initial per-worker state (all counters zero, nothing buffered). -/
def st0 : RunState := {}

/-- A sample non-idle line as `readline` returns it. -/
def lineA : List Char := "diagnostic\n".toList

/-- A sample line containing the idle marker, in the shape the child
writes (`"IDLE",` inside a frame), as `readline` returns it. -/
def lineIdle : List Char := "  \"IDLE\",\n".toList

/-- A sample first frame line (already newline-stripped). -/
def lineX : List Char := "junkheader".toList

/-- A sample non-`[` second frame line (already newline-stripped). -/
def lineY : List Char := "notbracket".toList

/-- The round-trip example input `a%0Ab%09c`. -/
def escExample : List Char := "a%0Ab%09c".toList

/-- The round-trip example output, `a`, newline, `b`, tab, `c`. -/
def escExpected : List Char := "a\nb\tc".toList

/-- A sample string containing no escape sequences. -/
def abcStr : List Char := "abc".toList

/-- An observation where only a partial line (no newline yet) is in the
file and the child is still alive. -/
def obsPartial : Obs := { content := "ab".toList, procExit := none }

/-- An observation where the full line has appeared in the file. -/
def obsFull : Obs := { content := "ab\n".toList, procExit := none }

/-- An observation where only a partial line is in the file and the child
has exited with status 3. -/
def obsDead : Obs := { content := "ab".toList, procExit := some 3 }

/-- The complete line of `obsFull`. -/
def nlLine : List Char := "ab\n".toList

/-- Replacement with enough fuel is the identity on strings not
containing the pattern. -/
theorem replaceAllFuel_of_not_contains (pat rep : List Char) :
    ∀ (n : Nat) (s : List Char), containsSub pat s = false → s.length ≤ n →
      replaceAllFuel pat rep n s = s := by
  intro n
  induction n with
  | zero => intro s _ _; rfl
  | succ n ih =>
    intro s hc hlen
    cases s with
    | nil => rfl
    | cons c cs =>
      have hsplit : pat.isPrefixOf (c :: cs) = false ∧ containsSub pat cs = false := by
        simpa [containsSub, Bool.or_eq_false_iff] using hc
      have hcond : ¬(pat ≠ [] ∧ pat.isPrefixOf (c :: cs)) := by
        intro h
        simp [hsplit.1] at h
      simp only [replaceAllFuel, if_neg hcond]
      have hlen2 : cs.length ≤ n := by
        simpa [List.length_cons, Nat.succ_le_succ_iff] using hlen
      rw [ih cs hsplit.2 hlen2]

/-- String replacement is the identity on strings not containing the
pattern. -/
theorem replaceAll_of_not_contains (pat rep s : List Char)
    (h : containsSub pat s = false) : replaceAll pat rep s = s :=
  replaceAllFuel_of_not_contains pat rep s.length s h (Nat.le_refl _)

/-- C10: `unescape` maps `a%0Ab%09c` to `a`, newline, `b`, tab, `c`; on
any string containing neither `%0A` nor `%09` it is the identity, and
hence idempotent on such strings. -/
theorem unescape_spec (s : List Char)
    (hA : containsSub pctNL s = false) (hT : containsSub pctTab s = false) :
    unescape escExample = escExpected ∧
    unescape s = s ∧ unescape (unescape s) = unescape s := by
  have h1 : replaceAll pctNL nlStr s = s := replaceAll_of_not_contains _ _ _ hA
  have h2 : replaceAll pctTab tabStr s = s := replaceAll_of_not_contains _ _ _ hT
  refine ⟨by decide, ?_, ?_⟩
  · unfold unescape
    rw [h1, h2]
  · unfold unescape
    rw [h1, h2, h1, h2]

/-- Witness for `unescape_spec` at the escape-free string `abc`. -/
theorem unescape_spec_witness :
    containsSub pctNL abcStr = false ∧ containsSub pctTab abcStr = false ∧
    unescape abcStr = abcStr :=
  ⟨by decide, by decide, (unescape_spec abcStr (by decide) (by decide)).2.1⟩

/-- C2: the final reporting block exits 0 when `failCount == 0` and
`testCount > 0`, exits 1 whenever `failCount > 0`, and on zero tests run
(with no failures) produces the distinct `no tests ran` report without
forcing any exit. -/
theorem exit_code_spec (f t s : Nat) :
    (f = 0 → 0 < t → exitCodeOf (finishRun f t s) = some 0) ∧
    (0 < f → exitCodeOf (finishRun f t s) = some 1) ∧
    (f = 0 → t = 0 → finishRun f t s = RunOutcome.noTestsRan ∧
      exitCodeOf (finishRun f t s) = none) := by
  refine ⟨?_, ?_, ?_⟩
  · intro hf ht
    have ht2 : ¬(t = 0) := by omega
    simp [finishRun, exitCodeOf, hf, ht2]
  · intro hf
    have hf2 : f > 0 := hf
    simp [finishRun, exitCodeOf, hf2]
  · intro hf ht
    simp [finishRun, exitCodeOf, hf, ht]

/-- Witness for `exit_code_spec` at the three concrete count triples
(0, 3, 2), (1, 3, 2) and (0, 0, 0). -/
theorem exit_code_spec_witness :
    exitCodeOf (finishRun 0 3 2) = some 0 ∧
    exitCodeOf (finishRun 1 3 2) = some 1 ∧
    exitCodeOf (finishRun 0 0 0) = none :=
  ⟨(exit_code_spec 0 3 2).1 rfl (by decide),
   (exit_code_spec 1 3 2).2.1 (by decide),
   ((exit_code_spec 0 0 0).2.2 rfl rfl).2⟩

/-- C5 counterexample: with zero tests executed (and zero failures) the
run reaches the `no tests ran` report and no `sys.exit` call is made —
the run does not terminate fatally, contradicting the claim that both
no-matching-tests conditions are fatal. -/
theorem zero_tests_not_fatal :
    finishRun 0 0 0 = RunOutcome.noTestsRan ∧
    exitCodeOf (finishRun 0 0 0) = none := by
  decide

/-- C5 (amended): a class filter matching zero classes terminates the run
with a `RuntimeError`; zero tests executed (with no failures) is reported
by the distinct `no tests ran` outcome — distinct from the test-failure
outcome — but does not terminate fatally: no exit is forced. -/
theorem no_matching_tests_amended (sub : Option String) (f t s : Nat) :
    (∃ msg, checkTestClasses [] sub = Except.error msg) ∧
    finishRun 0 0 s = RunOutcome.noTestsRan ∧
    exitCodeOf (finishRun 0 0 s) = none ∧
    finishRun (f + 1) t s ≠ RunOutcome.noTestsRan := by
  refine ⟨?_, by simp [finishRun], by simp [finishRun, exitCodeOf], by simp [finishRun]⟩
  cases sub with
  | none => exact ⟨noTestsFoundMsg, rfl⟩
  | some x => exact ⟨noTestsMatchMsg x, rfl⟩

/-- C1 (code bug): `main` passes the literal id 0 to every
`RunTestsJVM` (the loop index is unused), so with two workers both point
at the same events file `build/test/0.events` — the per-worker events-log
paths are not pairwise distinct. -/
theorem all_workers_share_events_file :
    ((mainSpawnWorkers 2 sampleCP false none false none).map fun w => eventsFile w.id)
      = [eventsFile 0, eventsFile 0] ∧
    ¬ ((mainSpawnWorkers 2 sampleCP false none false none).map fun w =>
        eventsFile w.id).Nodup := by
  refine ⟨rfl, ?_⟩
  decide

/-- C3 (code bug): invoking the harness with `-seed 42` makes `getArg`
raise (Python lists have no `indexOf` method), and independently `main`
hands the literal `None` to every worker as the seed, so no spawned
child command line carries `-Dtests.seed=42`. -/
theorem seed_option_broken :
    getArg argvSeedTest optSeed = GetArgResult.attrError ∧
    ∀ w ∈ mainSpawnWorkers 2 sampleCP false (some seed42) false none,
      seedFlag42 ∉ mkJvmCmd w := by
  refine ⟨by decide, ?_⟩
  decide

/-- Folding the event dispatch adds 1 to `failCount` when the processed
frames contain at least one failure frame and the latch is clear, and
adds nothing when the latch is already set. -/
theorem processEvents_failCount (w : RunTestsJVM) (job : List Char)
    (es : List Event) :
    ∀ st : RunState, (processEvents w job st es).failCount =
      st.failCount + (if st.didFail then 0 else min (failFrames es) 1) := by
  induction es with
  | nil =>
    intro st
    simp [processEvents, failFrames]
  | cons e es ih =>
    intro st
    by_cases hA : e.kind = "APPEND_STDOUT" ∨ e.kind = "APPEND_STDERR"
    · have hni : isIdleFrame e = false := by
        rcases hA with h | h <;> simp [isIdleFrame, h]
      have hnf : isFailureFrame e = false := by
        rcases hA with h | h <;> simp [isFailureFrame, h]
      by_cases hP : st.testCaseFailed ∨ w.doPrintOutput
      · simp [processEvents, processEvent, hA, hP, ih, failFrames, hni, hnf]
      · simp [processEvents, processEvent, hA, hP, ih, failFrames, hni, hnf]
    · by_cases hF : e.kind = "TEST_FAILURE" ∨ e.kind = "SUITE_FAILURE"
      · have hni : isIdleFrame e = false := by
          rcases hF with h | h <;> simp [isIdleFrame, h]
        have hyf : isFailureFrame e = true := by
          rcases hF with h | h <;> simp [isFailureFrame, h]
        cases hd : st.didFail with
        | false =>
          simp [processEvents, processEvent, hA, hF, hd, ih, failFrames, hni, hyf]
        | true =>
          simp [processEvents, processEvent, hA, hF, hd, ih, failFrames, hni, hyf]
      · by_cases hS : e.kind = "TEST_STARTED"
        · have hni : isIdleFrame e = false := by simp [isIdleFrame, hS]
          have hnf : isFailureFrame e = false := by simp [isFailureFrame, hS]
          simp [processEvents, processEvent, hA, hF, hS, ih, failFrames, hni, hnf]
        · by_cases hI : e.kind = "IDLE"
          · have hyi : isIdleFrame e = true := by simp [isIdleFrame, hI]
            simp [processEvents, processEvent, hA, hF, hS, hI, failFrames, hyi]
          · have hni : isIdleFrame e = false := by simp [isIdleFrame, hI]
            have hnf : isFailureFrame e = false := by
              simp [isFailureFrame]
              exact ⟨fun h => hF (Or.inl h), fun h => hF (Or.inr h)⟩
            simp [processEvents, processEvent, hA, hF, hS, hI, ih, failFrames,
              hni, hnf]

/-- C4: over the frames processed for one job, `failCount` grows by
exactly `min K 1` where `K` is the number of `TEST_FAILURE` /
`SUITE_FAILURE` frames before the terminating `IDLE` frame — so by
exactly 1 whenever `K ≥ 1`, never by `K`; and because `runJob` clears the
`didFail` latch at the start of each job, a failure in a second job run
by the same worker is counted again. -/
theorem suite_failure_counted_once (w : RunTestsJVM) (job job2 : List Char)
    (st : RunState) (es es2 : List Event) :
    (runJob w job st es).failCount = st.failCount + min (failFrames es) 1 ∧
    (runJob w job2 (runJob w job st es) es2).failCount =
      st.failCount + min (failFrames es) 1 + min (failFrames es2) 1 := by
  have h1 : ∀ (j : List Char) (s : RunState) (ev : List Event),
      (runJob w j s ev).failCount = s.failCount + min (failFrames ev) 1 := by
    intro j s ev
    unfold runJob
    rw [processEvents_failCount]
    simp
  exact ⟨h1 job st es, by rw [h1, h1]⟩

/-- C6 counterexample: a worker with the verbose flag set but
`doPrintOutput` unset (the all-tests mode of build.py line 462), with no
test-case failure pending, buffers an `APPEND_STDOUT` chunk instead of
surfacing it — the verbose flag does not control the echo. -/
theorem verbose_flag_does_not_echo :
    wVerboseOnly.verbose = true ∧
    st0.testCaseFailed = false ∧
    (processEvent wVerboseOnly jobSample st0 eChunkSample).1.messages = [] ∧
    (processEvent wVerboseOnly jobSample st0 eChunkSample).1.pendingOutput
      = [chunkX] := by
  refine ⟨rfl, rfl, ?_, ?_⟩ <;> decide

/-- C6 (amended): for an `APPEND_STDOUT` / `APPEND_STDERR` frame received
while no test-case failure is pending, the `doPrintOutput` flag — set in
single-test mode, not the verbose flag — controls whether the unescaped
chunk is surfaced immediately (`doPrintOutput` set) or buffered as
pending output (`doPrintOutput` unset); the verbose flag has no effect on
the dispatch at all (it only adds `-Dtests.verbose=true` to the child
command line). -/
theorem append_output_dispatch (w : RunTestsJVM) (job : List Char)
    (st : RunState) (e : Event)
    (hk : e.kind = "APPEND_STDOUT" ∨ e.kind = "APPEND_STDERR")
    (hf : st.testCaseFailed = false) :
    ((processEvent w job st e).1.messages,
      (processEvent w job st e).1.pendingOutput) =
      (if w.doPrintOutput then
        (st.messages ++ [unescape e.chunk], st.pendingOutput)
      else
        (st.messages, st.pendingOutput ++ [unescape e.chunk])) ∧
    (processEvent w job st e).2 = false ∧
    (∀ b : Bool, processEvent { w with verbose := b } job st e
      = processEvent w job st e) := by
  cases hdp : w.doPrintOutput <;>
    simp [processEvent, hk, hf, hdp]

/-- Witness for `append_output_dispatch`: in single-test mode
(`doPrintOutput` set) the sample chunk is surfaced immediately. -/
theorem append_output_dispatch_witness :
    ((processEvent wPrinting jobSample st0 eChunkSample).1.messages,
      (processEvent wPrinting jobSample st0 eChunkSample).1.pendingOutput) =
      (st0.messages ++ [unescape eChunkSample.chunk], st0.pendingOutput) := by
  have h := append_output_dispatch wPrinting jobSample st0 eChunkSample
    (Or.inl rfl) rfl
  have hdp : wPrinting.doPrintOutput = true := rfl
  rw [h.1, if_pos hdp]

/-- The accumulator of `waitIdle` collects every line read before the
first line containing the idle marker. -/
theorem waitIdleAux_append (l : List Char) (post : List (List Char))
    (hl : containsSub idleMarker l = true) :
    ∀ (pre : List (List Char)) (acc : List (List Char)),
      (∀ x ∈ pre, containsSub idleMarker x = false) →
      waitIdleAux acc (pre ++ l :: post) = some (acc ++ pre) := by
  intro pre
  induction pre with
  | nil =>
    intro acc _
    simp [waitIdleAux, hl]
  | cons p ps ih =>
    intro acc hp
    have hp0 : containsSub idleMarker p = false := hp p (by simp)
    have hps : ∀ x ∈ ps, containsSub idleMarker x = false :=
      fun x hx => hp x (by simp [hx])
    simp only [List.cons_append, waitIdleAux, hp0, Bool.false_eq_true, if_false]
    show waitIdleAux (acc ++ [p]) (ps ++ l :: post) = some (acc ++ p :: ps)
    rw [ih (acc ++ [p]) hps]
    simp

/-- C7 (amended): `waitIdle` reads lines until a line containing the
idle marker and returns exactly the lines read before that line; the
idle line itself, though read, is not included in the returned list. -/
theorem waitIdle_returns_lines_before_idle (pre : List (List Char))
    (l : List Char) (post : List (List Char))
    (hpre : ∀ x ∈ pre, containsSub idleMarker x = false)
    (hl : containsSub idleMarker l = true) :
    waitIdle (pre ++ l :: post) = some pre ∧ l ∉ pre := by
  constructor
  · have h := waitIdleAux_append l post hl pre [] hpre
    simpa [waitIdle] using h
  · intro hmem
    have := hpre l hmem
    rw [hl] at this
    exact Bool.noConfusion this

/-- Witness for `waitIdle_returns_lines_before_idle`: one diagnostic line
followed by an idle line yields exactly the diagnostic line. -/
theorem waitIdle_returns_lines_before_idle_witness :
    waitIdle [lineA, lineIdle] = some [lineA] :=
  (waitIdle_returns_lines_before_idle [lineA] lineIdle []
    (by decide) (by decide)).1

/-- C7 counterexample: the idle line is read during the wait (it is the
line that ends it) yet it is absent from the returned list — so not
every line read before returning is returned. -/
theorem waitIdle_drops_idle_line :
    waitIdle [lineA, lineIdle] = some [lineA] ∧ lineIdle ∉ [lineA] := by
  refine ⟨?_, ?_⟩ <;> decide

/-- C8 counterexample: a `]` line arriving as the first accumulated line
makes the frame handler evaluate `lines[1]` on a one-element list — the
Python `IndexError` — so malformed framing can raise. -/
theorem close_bracket_first_raises :
    readFrame [] [closeBracketLine] = FrameRes.indexError := by
  decide

/-- Lines that do not strip to `]` are accumulated (stripped) in order
without producing a frame or an error. -/
theorem readFrame_accumulate (l : List Char) (post : List (List Char)) :
    ∀ (pre : List (List Char)) (acc : List (List Char)),
      (∀ x ∈ pre, pyRstrip x ≠ closeBracketLine) →
      readFrame acc (pre ++ l :: post)
        = readFrame (acc ++ pre.map pyRstrip) (l :: post) := by
  intro pre
  induction pre with
  | nil =>
    intro acc _
    simp
  | cons p ps ih =>
    intro acc hp
    have hp0 : pyRstrip p ≠ closeBracketLine := hp p (by simp)
    have hps : ∀ x ∈ ps, pyRstrip x ≠ closeBracketLine :=
      fun x hx => hp x (by simp [hx])
    simp only [List.cons_append, readFrame, hp0, if_false]
    show readFrame (acc ++ [pyRstrip p]) (ps ++ l :: post)
      = readFrame (acc ++ (pyRstrip p :: ps.map pyRstrip)) (l :: post)
    rw [ih (acc ++ [pyRstrip p]) hps]
    simp

/-- The stripped `]` line strips to itself. -/
theorem pyRstrip_close : pyRstrip closeBracketLine = closeBracketLine := by
  decide

/-- C8 (amended): when a `]` line terminates a nonempty accumulation, the
handler decodes the joined text exactly when the second accumulated
(stripped) line is `[`, and otherwise discards the accumulation and
scans on, in both cases without error; only a `]` arriving as the very
first accumulated line raises an index error. -/
theorem readFrame_framing (pre rest : List (List Char))
    (h1 : pre ≠ [])
    (h2 : ∀ x ∈ pre, pyRstrip x ≠ closeBracketLine) :
    readFrame [] (pre ++ closeBracketLine :: rest) =
      if (pre.map pyRstrip ++ [closeBracketLine])[1]? = some openBracketLine then
        FrameRes.frame (joinNL (pre.map pyRstrip ++ [closeBracketLine])) rest
      else
        readFrame [] rest := by
  rw [readFrame_accumulate closeBracketLine rest pre [] h2]
  obtain ⟨p, ps, rfl⟩ := List.exists_cons_of_ne_nil h1
  cases ps with
  | nil =>
    simp only [readFrame, pyRstrip_close, List.map_cons, List.map_nil,
      List.nil_append, if_pos rfl]
    simp [closeBracketLine, openBracketLine]
  | cons q qs =>
    simp only [readFrame, pyRstrip_close, List.map_cons, List.nil_append,
      if_pos rfl]
    by_cases hq : pyRstrip q = openBracketLine <;>
      simp [hq]

/-- Witness for `readFrame_framing`: a two-line accumulation whose second
line is `[` decodes to the joined frame text, and one whose second line
is not `[` is discarded without error, the scan continuing past it. -/
theorem readFrame_framing_witness :
    readFrame [] [lineX, openBracketLine, closeBracketLine]
      = FrameRes.frame (joinNL [lineX, openBracketLine, closeBracketLine]) [] ∧
    readFrame [] [lineX, lineY, closeBracketLine] = FrameRes.noFrame := by
  constructor
  · exact (readFrame_framing [lineX, openBracketLine] []
      (by decide) (by decide)).trans (by decide)
  · exact (readFrame_framing [lineX, lineY] []
      (by decide) (by decide)).trans (by decide)

/-- C9: `readline` only ever returns complete, newline-terminated,
nonempty lines (with the offset advanced past exactly that line); when a
polling iteration sees an incomplete line it either raises the error
carrying the child's exit status (if the child has exited) or retries at
the very same restored offset on the next observation. -/
theorem readline_complete_lines (pos : Nat) (trace : List Obs) :
    (∀ l p, readlineLoop pos trace = ReadResult.line l p →
      l.getLast? = some '\n' ∧ l ≠ [] ∧ p = pos + l.length) ∧
    (∀ o rest, trace = o :: rest →
      lineIncomplete (pyReadlineAt o.content pos) = true →
      (o.procExit = none → readlineLoop pos trace = readlineLoop pos rest) ∧
      ∀ s, o.procExit = some s →
        readlineLoop pos trace = ReadResult.procTerminated s) := by
  constructor
  · induction trace with
    | nil =>
      intro l p h
      exact absurd h (by simp [readlineLoop])
    | cons o rest ih =>
      intro l p h
      by_cases hinc : lineIncomplete (pyReadlineAt o.content pos) = true
      · cases hpe : o.procExit with
        | none =>
          rw [readlineLoop, if_pos hinc, hpe] at h
          exact ih l p h
        | some s =>
          rw [readlineLoop, if_pos hinc, hpe] at h
          exact absurd h (by simp)
      · rw [readlineLoop, if_neg hinc] at h
        have hl : pyReadlineAt o.content pos = l := by
          injection h with h1 h2
        have hp : p = pos + l.length := by
          injection h with h1 h2
          rw [← h2, h1]
        have hinc2 : lineIncomplete l = false := by
          rw [← hl]
          exact Bool.not_eq_true _ |>.mp hinc
        have hparts : l.isEmpty = false ∧ (l.getLast? == some '\n') = true := by
          have := hinc2
          unfold lineIncomplete at this
          constructor
          · cases he : l.isEmpty
            · rfl
            · rw [he] at this
              simp at this
          · cases hg : (l.getLast? == some '\n')
            · rw [hg] at this
              cases he : l.isEmpty <;> rw [he] at this <;> simp at this
            · rfl
        refine ⟨?_, ?_, hp⟩
        · exact eq_of_beq hparts.2
        · intro hnil
          rw [hnil] at hparts
          exact Bool.noConfusion hparts.1
  · intro o rest htr hinc
    subst htr
    constructor
    · intro hpe
      rw [readlineLoop, if_pos hinc, hpe]
    · intro s hpe
      rw [readlineLoop, if_pos hinc, hpe]

/-- Witness for `readline_complete_lines`: a partial-line observation with
the child alive retries at the same offset; the same observation with the
child exited (status 3) raises with that status; and the complete line
eventually returned ends with a newline. -/
theorem readline_complete_lines_witness :
    readlineLoop 0 [obsPartial, obsFull] = readlineLoop 0 [obsFull] ∧
    readlineLoop 0 [obsDead] = ReadResult.procTerminated 3 ∧
    nlLine.getLast? = some '\n' :=
  ⟨((readline_complete_lines 0 [obsPartial, obsFull]).2 obsPartial [obsFull]
      rfl (by decide)).1 rfl,
   ((readline_complete_lines 0 [obsDead]).2 obsDead [] rfl (by decide)).2 3 rfl,
   ((readline_complete_lines 0 [obsFull]).1 nlLine 3 (by decide)).1⟩

end LuceneBuild
